import Mathlib

/-!
Verification of the AI completion/tokenization core of this repository.

The development shallowly embeds the Rust sources:
  * crates/ai/src/models.rs                      (TruncationDirection, AiModelVariant)
  * crates/ai/src/providers/ollama/model.rs      (OllamaModel, OllamaLanguageModel)
  * crates/ai/src/providers/open_ai/model.rs     (OpenAiModel, OpenAiLanguageModel)
  * crates/ai/src/providers/ollama/completion.rs (stream_completion, parse_line,
                                                  OllamaCompletionProvider::complete)
  * crates/assistant/src/assistant_settings.rs   (settings-side model catalog)

External library code (the tiktoken BPE tokenizer, serde_json) is not part of
this repository; it is abstracted as explicit function parameters (an encode /
decode pair, a JSON decoder), and theorems state the hypotheses on those
parameters that the corresponding library contracts provide.
-/

/-- `TruncationDirection` from crates/ai/src/models.rs. -/
inductive TruncationDirection where
  | Start
  | End
deriving DecidableEq, Repr

/-- Abstraction of the external `tiktoken_rs::CoreBPE` tokenizer: an encoder
(`encode_with_special_tokens`, total over text) and a decoder (which may fail
on token sequences that do not correspond to valid text). -/
structure CoreBPE where
  encode : String → List Nat
  decode : List Nat → Except String String

/-- Structural error taxonomy for the language-model operations: either the
tokenizer was never resolved (the `anyhow!("... was not retrieved")` branch)
or the BPE decoder failed. -/
inductive ModelError where
  | noTokenizer
  | decodeFailed (msg : String)
deriving DecidableEq, Repr

/-- `OllamaLanguageModel` from crates/ai/src/providers/ollama/model.rs:
a model name plus an optional tokenizer. -/
structure OllamaLanguageModel where
  name : String
  bpe : Option CoreBPE

/-- `OllamaLanguageModel::load`: looks up the BPE for the fixed model name
"gpt-3.5-turbo-0613" (the external `tiktoken_rs::get_bpe_from_model`, here the
parameter `lookup`) and falls back to the static `OLLAMA_BPE_TOKENIZER`
(parameter `fallbackBpe`); the tokenizer field is always populated. -/
def OllamaLanguageModel.load (lookup : String → Option CoreBPE) (fallbackBpe : CoreBPE)
    (model_name : String) : OllamaLanguageModel :=
  { name := model_name
    bpe := some ((lookup "gpt-3.5-turbo-0613").getD fallbackBpe) }

/-- `OllamaLanguageModel::count_tokens`: length of the encoding, or the
"tokenizer was not retrieved" error when no tokenizer is present. -/
def OllamaLanguageModel.count_tokens (m : OllamaLanguageModel) (content : String) :
    Except ModelError Nat :=
  match m.bpe with
  | some bpe => Except.ok (bpe.encode content).length
  | none => Except.error ModelError.noTokenizer

/-- `OllamaLanguageModel::truncate`: encodes `content`; when the token count
exceeds `length` it decodes `tokens[..length]` (direction End) or
`tokens[length..]` (direction Start); otherwise it decodes the full sequence. -/
def OllamaLanguageModel.truncate (m : OllamaLanguageModel) (content : String)
    (length : Nat) (direction : TruncationDirection) : Except ModelError String :=
  match m.bpe with
  | some bpe =>
    let tokens := bpe.encode content
    if tokens.length > length then
      match direction with
      | TruncationDirection.End => (bpe.decode (tokens.take length)).mapError ModelError.decodeFailed
      | TruncationDirection.Start => (bpe.decode (tokens.drop length)).mapError ModelError.decodeFailed
    else
      (bpe.decode tokens).mapError ModelError.decodeFailed
  | none => Except.error ModelError.noTokenizer

/-- `OpenAiLanguageModel` from crates/ai/src/providers/open_ai/model.rs. -/
structure OpenAiLanguageModel where
  name : String
  bpe : Option CoreBPE

/-- `OpenAiLanguageModel::load`: looks up the BPE for the given model name and
falls back to the static `OPEN_AI_BPE_TOKENIZER`; the tokenizer field is
always populated. -/
def OpenAiLanguageModel.load (lookup : String → Option CoreBPE) (fallbackBpe : CoreBPE)
    (model_name : String) : OpenAiLanguageModel :=
  { name := model_name
    bpe := some ((lookup model_name).getD fallbackBpe) }

/-- `OpenAiLanguageModel::count_tokens`. -/
def OpenAiLanguageModel.count_tokens (m : OpenAiLanguageModel) (content : String) :
    Except ModelError Nat :=
  match m.bpe with
  | some bpe => Except.ok (bpe.encode content).length
  | none => Except.error ModelError.noTokenizer

/-- `OpenAiLanguageModel::truncate` (same algorithm as the Ollama one). -/
def OpenAiLanguageModel.truncate (m : OpenAiLanguageModel) (content : String)
    (length : Nat) (direction : TruncationDirection) : Except ModelError String :=
  match m.bpe with
  | some bpe =>
    let tokens := bpe.encode content
    if tokens.length > length then
      match direction with
      | TruncationDirection.End => (bpe.decode (tokens.take length)).mapError ModelError.decodeFailed
      | TruncationDirection.Start => (bpe.decode (tokens.drop length)).mapError ModelError.decodeFailed
    else
      (bpe.decode tokens).mapError ModelError.decodeFailed
  | none => Except.error ModelError.noTokenizer

/-- A concrete tokenizer instance used to evaluate the embedding on explicit
inputs: one token per character. It satisfies the BPE round-trip contract on
its own encodings. -/
def charBPE : CoreBPE :=
  { encode := fun s => s.data.map Char.toNat
    decode := fun ts => Except.ok (String.mk (ts.map Char.ofNat)) }

/-- A concrete Ollama model carrying the character tokenizer. -/
def charOllama : OllamaLanguageModel := { name := "codellama:7b", bpe := some charBPE }

/-- A concrete OpenAI model carrying the character tokenizer. -/
def charOpenAi : OpenAiLanguageModel := { name := "gpt-4-0613", bpe := some charBPE }

example : charOllama.truncate "abcde" 3 TruncationDirection.Start = Except.ok "de" := by rfl
example : charOllama.truncate "abcde" 3 TruncationDirection.End = Except.ok "abc" := by rfl
example : charOllama.count_tokens "abcde" = Except.ok 5 := by rfl

namespace Ai

/-- `OllamaModel` from crates/ai/src/providers/ollama/model.rs (the ai crate's
catalog): two variants. -/
inductive OllamaModel where
  | CodeLlamaSevenBillion
  | CodeLlamaThirteenBillion
deriving DecidableEq, Repr, Fintype

/-- `OllamaModel::full_name` (ai crate). -/
def OllamaModel.full_name : OllamaModel → String
  | OllamaModel.CodeLlamaSevenBillion => "codellama:7b"
  | OllamaModel.CodeLlamaThirteenBillion => "codellama:13b"

/-- `OllamaModel::short_name` (ai crate). -/
def OllamaModel.short_name : OllamaModel → String
  | OllamaModel.CodeLlamaSevenBillion => "codellama-7"
  | OllamaModel.CodeLlamaThirteenBillion => "codellama-13"

/-- `OllamaModel::cycle` (ai crate): swaps the two variants. -/
def OllamaModel.cycle : OllamaModel → OllamaModel
  | OllamaModel.CodeLlamaSevenBillion => OllamaModel.CodeLlamaThirteenBillion
  | OllamaModel.CodeLlamaThirteenBillion => OllamaModel.CodeLlamaSevenBillion

/-- `OpenAiModel` from crates/ai/src/providers/open_ai/model.rs (the ai
crate's catalog): three variants. -/
inductive OpenAiModel where
  | ThreePointFiveTurbo
  | Four
  | FourTurbo
deriving DecidableEq, Repr, Fintype

/-- `OpenAiModel::full_name` (ai crate). -/
def OpenAiModel.full_name : OpenAiModel → String
  | OpenAiModel.ThreePointFiveTurbo => "gpt-3.5-turbo-0613"
  | OpenAiModel.Four => "gpt-4-0613"
  | OpenAiModel.FourTurbo => "gpt-4-1106-preview"

/-- `OpenAiModel::short_name` (ai crate). -/
def OpenAiModel.short_name : OpenAiModel → String
  | OpenAiModel.ThreePointFiveTurbo => "gpt-3.5-turbo"
  | OpenAiModel.Four => "gpt-4"
  | OpenAiModel.FourTurbo => "gpt-4-turbo"

/-- `OpenAiModel::cycle` (ai crate): 3.5-turbo → 4 → 4-turbo → 3.5-turbo. -/
def OpenAiModel.cycle : OpenAiModel → OpenAiModel
  | OpenAiModel.ThreePointFiveTurbo => OpenAiModel.Four
  | OpenAiModel.Four => OpenAiModel.FourTurbo
  | OpenAiModel.FourTurbo => OpenAiModel.ThreePointFiveTurbo

/-- `AiModelVariant` from crates/ai/src/models.rs: the provider-tagged union
of the ai crate's catalogs. -/
inductive AiModelVariant where
  | OpenAI (model : OpenAiModel)
  | Ollama (model : OllamaModel)
deriving DecidableEq, Repr, Fintype

/-- `AiModelVariant::cycle` from crates/ai/src/models.rs: cycles the wrapped
model and re-wraps it with the same provider tag. -/
def AiModelVariant.cycle : AiModelVariant → AiModelVariant
  | AiModelVariant.OpenAI model => AiModelVariant.OpenAI model.cycle
  | AiModelVariant.Ollama model => AiModelVariant.Ollama model.cycle

/-- The provider family of an `AiModelVariant` (its union tag): `true` for
OpenAI, `false` for Ollama. -/
def AiModelVariant.isOpenAIFamily : AiModelVariant → Bool
  | AiModelVariant.OpenAI _ => true
  | AiModelVariant.Ollama _ => false

end Ai

namespace Settings

/-- `AiProvider` from crates/assistant/src/assistant_settings.rs. -/
inductive AiProvider where
  | OpenAI
  | Ollama
deriving DecidableEq, Repr, Fintype

/-- `OpenAiModel` from crates/assistant/src/assistant_settings.rs (the
settings-side catalog): three variants, same set as the ai crate's. -/
inductive OpenAiModel where
  | ThreePointFiveTurbo
  | Four
  | FourTurbo
deriving DecidableEq, Repr, Fintype

/-- Settings-side `OpenAiModel::cycle`. -/
def OpenAiModel.cycle : OpenAiModel → OpenAiModel
  | OpenAiModel.ThreePointFiveTurbo => OpenAiModel.Four
  | OpenAiModel.Four => OpenAiModel.FourTurbo
  | OpenAiModel.FourTurbo => OpenAiModel.ThreePointFiveTurbo

/-- `OllamaModel` from crates/assistant/src/assistant_settings.rs: the
settings-side catalog holds a SINGLE variant. -/
inductive OllamaModel where
  | CodeLlamaSevenBillion
deriving DecidableEq, Repr, Fintype

/-- Settings-side `OllamaModel::cycle`: on the one-variant set it maps the
variant to itself. -/
def OllamaModel.cycle : OllamaModel → OllamaModel
  | OllamaModel.CodeLlamaSevenBillion => OllamaModel.CodeLlamaSevenBillion

/-- `AiModel` from crates/assistant/src/assistant_settings.rs: the
settings-side provider-tagged union. -/
inductive AiModel where
  | OpenAI (model : OpenAiModel)
  | Ollama (model : OllamaModel)
deriving DecidableEq, Repr, Fintype

/-- Settings-side `AiModel::cycle`. -/
def AiModel.cycle : AiModel → AiModel
  | AiModel.OpenAI model => AiModel.OpenAI model.cycle
  | AiModel.Ollama model => AiModel.Ollama model.cycle

/-- The provider tag of a settings-side `AiModel`. -/
def AiModel.provider : AiModel → AiProvider
  | AiModel.OpenAI _ => AiProvider.OpenAI
  | AiModel.Ollama _ => AiProvider.Ollama

/-- `AiProvider::default_model` from crates/assistant/src/assistant_settings.rs. -/
def AiProvider.default_model : AiProvider → AiModel
  | AiProvider.OpenAI => AiModel.OpenAI OpenAiModel.ThreePointFiveTurbo
  | AiProvider.Ollama => AiModel.Ollama OllamaModel.CodeLlamaSevenBillion

end Settings

example : Function.Bijective Ai.OpenAiModel.cycle := by decide
example : ∀ x : Ai.OpenAiModel, Ai.OpenAiModel.cycle^[3] x = x := by decide
example : Settings.OllamaModel.cycle Settings.OllamaModel.CodeLlamaSevenBillion
    = Settings.OllamaModel.CodeLlamaSevenBillion := by decide

/-- `Role` from crates/ai/src/providers/ollama/completion.rs. -/
inductive Role where
  | User
  | Assistant
  | System
deriving DecidableEq, Repr

/-- `ResponseMessage` from crates/ai/src/providers/ollama/completion.rs: both
fields optional in a streamed delta. -/
structure ResponseMessage where
  role : Option Role
  content : Option String
deriving DecidableEq, Repr

/-- `OllamaUsage` from crates/ai/src/providers/ollama/completion.rs. -/
structure OllamaUsage where
  prompt_tokens : Nat
  completion_tokens : Nat
  total_tokens : Nat
deriving DecidableEq, Repr

/-- `ChatChoiceDelta` from crates/ai/src/providers/ollama/completion.rs. -/
structure ChatChoiceDelta where
  index : Nat
  delta : ResponseMessage
  finish_reason : Option String
deriving DecidableEq, Repr

/-- `OllamaResponseStreamEvent` from crates/ai/src/providers/ollama/completion.rs. -/
structure OllamaResponseStreamEvent where
  id : Option String
  object : String
  created : Nat
  model : String
  choices : List ChatChoiceDelta
  usage : Option OllamaUsage
deriving DecidableEq, Repr

/-- Character-list core of Rust's `str::strip_prefix`: removes the literal
pattern `p` from the front of `s`, or fails. -/
def dropLit : List Char → List Char → Option (List Char)
  | [], s => some s
  | _ :: _, [] => none
  | c :: p, d :: s => if c = d then dropLit p s else none

/-- `line.strip_prefix("data: ")` as used by `parse_line`. -/
def stripDataMarker (s : String) : Option String :=
  (dropLit "data: ".data s.data).map String.mk

/-- `parse_line` from `stream_completion` (crates/ai/src/providers/ollama/
completion.rs): an IO error on the line propagates (`line?`); a line without
the `"data: "` marker yields `Ok(None)`; otherwise the remainder is decoded as
one StreamEvent (`serde_json::from_str`, abstracted as the `decode`
parameter), a decode failure propagating as an error. -/
def parse_line (decode : String → Except String OllamaResponseStreamEvent)
    (line : Except String String) : Except String (Option OllamaResponseStreamEvent) :=
  match line with
  | Except.error e => Except.error e
  | Except.ok s =>
    match stripDataMarker s with
    | some data => (decode data).map some
    | none => Except.ok none

/-- The loop's `done` test: the event's LAST choice carries a present
(`is_some`) finish reason. -/
def eventDone (ev : OllamaResponseStreamEvent) : Bool :=
  match ev.choices.getLast? with
  | some choice => choice.finish_reason.isSome
  | none => false

/-- The `while let Some(line) = lines.next().await` loop of
`stream_completion`, run over a list of input lines (each either a read line
or a transport read error), with the forwarding channel's receiver alive
throughout (the `unbounded_send(..).is_err()` consumer-cancellation break is
the concurrency aspect outside this embedding).  Returns the list of items
forwarded on the channel, paired with the number of lines read: a line whose
parse yields `Ok(None)` is discarded; a parsed event is forwarded and, when
`eventDone` holds, the loop breaks without reading further lines; an error
item is forwarded and the loop continues. -/
def streamLoop (decode : String → Except String OllamaResponseStreamEvent) :
    List (Except String String) → List (Except String OllamaResponseStreamEvent) × Nat
  | [] => ([], 0)
  | line :: rest =>
    match parse_line decode line with
    | Except.ok none =>
      let r := streamLoop decode rest
      (r.1, r.2 + 1)
    | Except.ok (some ev) =>
      if eventDone ev then ([Except.ok ev], 1)
      else
        let r := streamLoop decode rest
        (Except.ok ev :: r.1, r.2 + 1)
    | Except.error e =>
      let r := streamLoop decode rest
      (Except.error e :: r.1, r.2 + 1)

/-- The `filter_map` closure of `OllamaCompletionProvider::complete`: an error
item passes through; an ok event is reduced to its last choice's delta content
(`choices.pop()?` — `pop` takes the Vec's last element, the `?` skipping
events with no choices), with `unwrap_or_default()` supplying `""` when the
content field is absent. -/
def projectFragment (item : Except String OllamaResponseStreamEvent) :
    Option (Except String String) :=
  match item with
  | Except.error e => some (Except.error e)
  | Except.ok ev =>
    match ev.choices.getLast? with
    | some choice => some (Except.ok (choice.delta.content.getD ""))
    | none => none

/-- The fragment stream produced by `complete` from the forwarded items. -/
def completeFragments (decode : String → Except String OllamaResponseStreamEvent)
    (lines : List (Except String String)) : List (Except String String) :=
  (streamLoop decode lines).1.filterMap projectFragment

/-- An HTTP status code with its canonical reason phrase, as displayed by the
`http` crate's `Display` ("400 Bad Request"). -/
structure StatusCode where
  code : Nat
  canonicalReason : String
deriving DecidableEq, Repr

/-- The `Display` rendering of a status code used by the `{}` format. -/
def StatusCode.display (status : StatusCode) : String :=
  toString status.code ++ " " ++ status.canonicalReason

/-- The non-success branch of `stream_completion` (crates/ai/src/providers/
ollama/completion.rs): the body is parsed as `{"error":{"message":...}}`
(`serde_json::from_str::<OllamaResponse>`, abstracted as `parseErr`, yielding
the extracted message on success); when that succeeds with a non-empty
message the error is `"Failed to connect to OpenAI API: {message}"`,
otherwise `"Failed to connect to OpenAI API: {status} {body}"`. -/
def ollamaErrorMessage (parseErr : String → Option String) (status : StatusCode)
    (body : String) : String :=
  match parseErr body with
  | some message =>
    if message ≠ "" then "Failed to connect to OpenAI API: " ++ message
    else "Failed to connect to OpenAI API: " ++ status.display ++ " " ++ body
  | none => "Failed to connect to OpenAI API: " ++ status.display ++ " " ++ body

example : stripDataMarker "data: xyz" = some "xyz" := by rfl
example : stripDataMarker "" = none := by rfl
example : stripDataMarker ": keep-alive" = none := by rfl

/-- A mid-stream delta frame: one choice, content "Hello", `finish_reason`
null (absent). -/
def evNullFinish : OllamaResponseStreamEvent :=
  { id := some "1", object := "chat.completion.chunk", created := 0, model := "m"
    choices := [{ index := 0, delta := { role := none, content := some "Hello" },
                  finish_reason := none }]
    usage := none }

/-- A terminating frame: one choice, content "!", `finish_reason` `"stop"`. -/
def evStopFinish : OllamaResponseStreamEvent :=
  { id := some "2", object := "chat.completion.chunk", created := 0, model := "m"
    choices := [{ index := 0, delta := { role := none, content := some "!" },
                  finish_reason := some "stop" }]
    usage := none }

/-- A frame whose last choice carries the EMPTY-STRING finish reason
(`"finish_reason":""` — present but not non-empty). -/
def evEmptyFinish : OllamaResponseStreamEvent :=
  { id := some "3", object := "chat.completion.chunk", created := 0, model := "m"
    choices := [{ index := 0, delta := { role := none, content := some "Hi" },
                  finish_reason := some "" }]
    usage := none }

/-- JSON text of `evNullFinish` (braces escaped as `\x7b`/`\x7d`). -/
def jsonNullFinish : String :=
  "\x7b\"id\":\"1\",\"object\":\"chat.completion.chunk\",\"created\":0,\"model\":\"m\",\"choices\":[\x7b\"index\":0,\"delta\":\x7b\"content\":\"Hello\"\x7d,\"finish_reason\":null\x7d]\x7d"

/-- JSON text of `evStopFinish`. -/
def jsonStopFinish : String :=
  "\x7b\"id\":\"2\",\"object\":\"chat.completion.chunk\",\"created\":0,\"model\":\"m\",\"choices\":[\x7b\"index\":0,\"delta\":\x7b\"content\":\"!\"\x7d,\"finish_reason\":\"stop\"\x7d]\x7d"

/-- JSON text of `evEmptyFinish`. -/
def jsonEmptyFinish : String :=
  "\x7b\"id\":\"3\",\"object\":\"chat.completion.chunk\",\"created\":0,\"model\":\"m\",\"choices\":[\x7b\"index\":0,\"delta\":\x7b\"content\":\"Hi\"\x7d,\"finish_reason\":\"\"\x7d]\x7d"

/-- The behaviour of `serde_json::from_str::<OllamaResponseStreamEvent>` at
the three concrete frames above (and failing elsewhere), used to run the
stream loop on explicit inputs. -/
def decodeTable (s : String) : Except String OllamaResponseStreamEvent :=
  if s = jsonNullFinish then Except.ok evNullFinish
  else if s = jsonStopFinish then Except.ok evStopFinish
  else if s = jsonEmptyFinish then Except.ok evEmptyFinish
  else Except.error "failed to parse JSON"

/-- Removing a literal pattern from a list it was just prepended to succeeds
with the remainder. -/
theorem dropLit_append (p x : List Char) : dropLit p (p ++ x) = some x := by
  induction p with
  | nil => rfl
  | cons c p ih => simp [dropLit, ih]

/-- `strip_prefix("data: ")` on a line built by prepending the marker. -/
theorem stripDataMarker_marker_append (s : String) :
    stripDataMarker ("data: " ++ s) = some s := by
  simp only [stripDataMarker, String.data_append, dropLit_append, Option.map_some']

/-- `Except.mapError` returns `ok` exactly when the underlying value does. -/
theorem mapError_eq_ok {ε ε' α : Type} (f : ε → ε') (x : Except ε α) (a : α) :
    x.mapError f = Except.ok a ↔ x = Except.ok a := by
  cases x <;> simp [Except.mapError]

/-- The character tokenizer satisfies the BPE round-trip contract: decoding
any prefix of an encoding and re-encoding gives back that prefix. -/
theorem charBPE_roundtrip (content : String) (k : Nat) (s : String)
    (h : charBPE.decode ((charBPE.encode content).take k) = Except.ok s) :
    charBPE.encode s = (charBPE.encode content).take k := by
  have hs : s = String.mk (((content.data.map Char.toNat).take k).map Char.ofNat) := by
    have := h
    simp only [charBPE, Except.ok.injEq] at this
    exact this.symm
  subst hs
  simp only [charBPE, List.map_map]
  rw [← List.map_take, List.map_map]
  exact List.map_congr_left (fun c _ => by simp [Function.comp, Char.ofNat_toNat])

/-- C1 evaluation: with the character tokenizer, `"abcde"` encodes to five
tokens; `truncate("abcde", 3, Start)` in both providers returns `"de"` — the
decode of `tokens[3..]`, i.e. the last TWO tokens — whereas the decode of the
last THREE tokens (the spec's "keep the last `length` tokens") is `"cde"`.
The code drops the first `length` tokens instead of keeping the last
`length`, so the result can exceed `length` tokens. -/
theorem truncate_start_divergence :
    charOllama.truncate "abcde" 3 TruncationDirection.Start = Except.ok "de"
    ∧ charOpenAi.truncate "abcde" 3 TruncationDirection.Start = Except.ok "de"
    ∧ charBPE.decode ((charBPE.encode "abcde").drop ((charBPE.encode "abcde").length - 3))
        = Except.ok "cde"
    ∧ ("de" : String) ≠ "cde" :=
  ⟨rfl, rfl, rfl, by decide⟩

/-- C2: for any tokenizer satisfying the round-trip contract on prefixes of
this content's encoding, `truncate(content, length, End)` followed by
`count_tokens` yields a value ≤ `length`, equal to `length` whenever
`count_tokens(content) > length` — for both providers. -/
theorem truncate_end_then_count (nmA nmB : String) (bpe : CoreBPE) (content : String)
    (length : Nat)
    (h : ∀ k s, bpe.decode ((bpe.encode content).take k) = Except.ok s →
        bpe.encode s = (bpe.encode content).take k) :
    (∀ s, (OllamaLanguageModel.mk nmA (some bpe)).truncate content length
            TruncationDirection.End = Except.ok s →
        ∃ n, (OllamaLanguageModel.mk nmA (some bpe)).count_tokens s = Except.ok n ∧
          n ≤ length ∧ ((bpe.encode content).length > length → n = length))
    ∧ (∀ s, (OpenAiLanguageModel.mk nmB (some bpe)).truncate content length
            TruncationDirection.End = Except.ok s →
        ∃ n, (OpenAiLanguageModel.mk nmB (some bpe)).count_tokens s = Except.ok n ∧
          n ≤ length ∧ ((bpe.encode content).length > length → n = length)) := by
  have key : ∀ s, bpe.decode ((bpe.encode content).take length) = Except.ok s →
      (bpe.encode s).length ≤ length ∧
        ((bpe.encode content).length > length → (bpe.encode s).length = length) := by
    intro s hs
    have henc := h length s hs
    rw [henc, List.length_take]
    exact ⟨min_le_left _ _, fun hgt => Nat.min_eq_left (Nat.le_of_lt hgt)⟩
  constructor
  · intro s hs
    by_cases hlen : (bpe.encode content).length > length
    · have heq : (OllamaLanguageModel.mk nmA (some bpe)).truncate content length
          TruncationDirection.End
          = (bpe.decode ((bpe.encode content).take length)).mapError ModelError.decodeFailed := by
        simp [OllamaLanguageModel.truncate, hlen]
      rw [heq, mapError_eq_ok] at hs
      exact ⟨(bpe.encode s).length, rfl, key s hs⟩
    · have hle : (bpe.encode content).length ≤ length := Nat.le_of_not_lt hlen
      have heq : (OllamaLanguageModel.mk nmA (some bpe)).truncate content length
          TruncationDirection.End
          = (bpe.decode (bpe.encode content)).mapError ModelError.decodeFailed := by
        simp [OllamaLanguageModel.truncate, hlen]
      rw [heq, mapError_eq_ok] at hs
      rw [← List.take_of_length_le hle] at hs
      exact ⟨(bpe.encode s).length, rfl, key s hs⟩
  · intro s hs
    by_cases hlen : (bpe.encode content).length > length
    · have heq : (OpenAiLanguageModel.mk nmB (some bpe)).truncate content length
          TruncationDirection.End
          = (bpe.decode ((bpe.encode content).take length)).mapError ModelError.decodeFailed := by
        simp [OpenAiLanguageModel.truncate, hlen]
      rw [heq, mapError_eq_ok] at hs
      exact ⟨(bpe.encode s).length, rfl, key s hs⟩
    · have hle : (bpe.encode content).length ≤ length := Nat.le_of_not_lt hlen
      have heq : (OpenAiLanguageModel.mk nmB (some bpe)).truncate content length
          TruncationDirection.End
          = (bpe.decode (bpe.encode content)).mapError ModelError.decodeFailed := by
        simp [OpenAiLanguageModel.truncate, hlen]
      rw [heq, mapError_eq_ok] at hs
      rw [← List.take_of_length_le hle] at hs
      exact ⟨(bpe.encode s).length, rfl, key s hs⟩

/-- Closed instance of `truncate_end_then_count` at the character tokenizer:
`"abcde"` (5 tokens) truncated to 3 from the End gives `"abc"`, whose token
count is exactly 3. -/
theorem truncate_end_then_count_witness :
    ∃ n, charOllama.count_tokens "abc" = Except.ok n ∧ n ≤ 3 ∧
      ((charBPE.encode "abcde").length > 3 → n = 3) :=
  (truncate_end_then_count "codellama:7b" "gpt-4-0613" charBPE "abcde" 3
    (charBPE_roundtrip "abcde")).1 "abc" rfl

/-- C3: when `count_tokens(content)` is within `length`, `truncate` returns
the decode of the full encoded token sequence, for both directions and both
providers (the right-hand side does not depend on the direction, so Start and
End agree). -/
theorem truncate_within_bound_decodes_full (nmA nmB : String) (bpe : CoreBPE)
    (content : String) (length n : Nat) (direction : TruncationDirection)
    (hc : (OllamaLanguageModel.mk nmA (some bpe)).count_tokens content = Except.ok n)
    (hle : n ≤ length) :
    (OllamaLanguageModel.mk nmA (some bpe)).truncate content length direction
        = (bpe.decode (bpe.encode content)).mapError ModelError.decodeFailed
    ∧ (OpenAiLanguageModel.mk nmB (some bpe)).truncate content length direction
        = (bpe.decode (bpe.encode content)).mapError ModelError.decodeFailed := by
  have hn : n = (bpe.encode content).length := by
    simp only [OllamaLanguageModel.count_tokens, Except.ok.injEq] at hc
    exact hc.symm
  subst hn
  have hnot : ¬ (bpe.encode content).length > length := Nat.not_lt.mpr hle
  constructor
  · simp [OllamaLanguageModel.truncate, hnot]
  · simp [OpenAiLanguageModel.truncate, hnot]

/-- Closed instance of `truncate_within_bound_decodes_full`: `"ab"` (2
tokens) with bound 5 round-trips unchanged in both providers. -/
theorem truncate_within_bound_decodes_full_witness :
    charOllama.truncate "ab" 5 TruncationDirection.Start
        = (charBPE.decode (charBPE.encode "ab")).mapError ModelError.decodeFailed
    ∧ charOpenAi.truncate "ab" 5 TruncationDirection.Start
        = (charBPE.decode (charBPE.encode "ab")).mapError ModelError.decodeFailed :=
  truncate_within_bound_decodes_full "codellama:7b" "gpt-4-0613" charBPE "ab" 5 2
    TruncationDirection.Start rfl (by decide)

/-- C4 counterexample: in the settings catalog (crates/assistant/src/
assistant_settings.rs) the Ollama variant set has exactly one member, and
`cycle` maps it to itself — a fixed point, so "cycle is a permutation with no
fixed point" fails for that catalog. -/
theorem settings_ollama_cycle_fixed_point :
    Settings.OllamaModel.cycle Settings.OllamaModel.CodeLlamaSevenBillion
      = Settings.OllamaModel.CodeLlamaSevenBillion := rfl

/-- C4 (amended): in each of the four catalogs `cycle` is a permutation of
the variant set and iterating it N times (N = catalog size) first returns the
starting variant after exactly N steps; the no-fixed-point property holds for
every catalog with at least two variants (ai-crate OpenAI N=3, ai-crate
Ollama N=2, settings OpenAI N=3) but not for the one-variant settings Ollama
catalog, whose cycle is the identity (N=1). -/
theorem catalog_cycle_structure :
    (Function.Bijective Ai.OpenAiModel.cycle
      ∧ (∀ x, Ai.OpenAiModel.cycle x ≠ x)
      ∧ (∀ x, Ai.OpenAiModel.cycle^[3] x = x)
      ∧ (∀ x, Ai.OpenAiModel.cycle^[2] x ≠ x))
    ∧ (Function.Bijective Ai.OllamaModel.cycle
      ∧ (∀ x, Ai.OllamaModel.cycle x ≠ x)
      ∧ (∀ x, Ai.OllamaModel.cycle^[2] x = x))
    ∧ (Function.Bijective Settings.OpenAiModel.cycle
      ∧ (∀ x, Settings.OpenAiModel.cycle x ≠ x)
      ∧ (∀ x, Settings.OpenAiModel.cycle^[3] x = x)
      ∧ (∀ x, Settings.OpenAiModel.cycle^[2] x ≠ x))
    ∧ (Function.Bijective Settings.OllamaModel.cycle
      ∧ (∀ x, Settings.OllamaModel.cycle^[1] x = x)) := by
  decide

/-- Closed instance of `catalog_cycle_structure`: the ai-crate OpenAI cycle
has no fixed point at `Four`. -/
theorem catalog_cycle_structure_witness :
    Ai.OpenAiModel.cycle Ai.OpenAiModel.Four ≠ Ai.OpenAiModel.Four :=
  catalog_cycle_structure.1.2.1 Ai.OpenAiModel.Four

/-- C9: cycling an `AiModelVariant` (ai crate) never changes the provider
family; cycling a settings-side `AiModel` never changes the provider tag; and
`AiProvider::default_model` returns a variant whose provider tag equals the
selected provider. -/
theorem cycle_preserves_provider_tag :
    (∀ v : Ai.AiModelVariant, (Ai.AiModelVariant.cycle v).isOpenAIFamily = v.isOpenAIFamily)
    ∧ (∀ v : Settings.AiModel, (Settings.AiModel.cycle v).provider = v.provider)
    ∧ (∀ p : Settings.AiProvider, (Settings.AiProvider.default_model p).provider = p) := by
  decide

/-- C10: `load` always populates the tokenizer field (the model-specific
lookup with the fixed fallback), so `count_tokens` always succeeds and
`truncate` never returns the "tokenizer was not retrieved" error, for every
lookup outcome, fallback, model name and input — in both providers. -/
theorem load_always_resolves_tokenizer :
    ∀ (lookup : String → Option CoreBPE) (fallbackBpe : CoreBPE)
      (model_name content : String) (length : Nat) (direction : TruncationDirection),
      ((OllamaLanguageModel.load lookup fallbackBpe model_name).bpe).isSome = true
      ∧ (∃ n, (OllamaLanguageModel.load lookup fallbackBpe model_name).count_tokens content
          = Except.ok n)
      ∧ (OllamaLanguageModel.load lookup fallbackBpe model_name).truncate content length
          direction ≠ Except.error ModelError.noTokenizer
      ∧ ((OpenAiLanguageModel.load lookup fallbackBpe model_name).bpe).isSome = true
      ∧ (∃ n, (OpenAiLanguageModel.load lookup fallbackBpe model_name).count_tokens content
          = Except.ok n)
      ∧ (OpenAiLanguageModel.load lookup fallbackBpe model_name).truncate content length
          direction ≠ Except.error ModelError.noTokenizer := by
  intro lookup fallbackBpe model_name content length direction
  have aux : ∀ (x : Except String String),
      x.mapError ModelError.decodeFailed ≠ Except.error ModelError.noTokenizer := by
    intro x h
    cases x <;> simp [Except.mapError] at h
  refine ⟨rfl, ⟨_, rfl⟩, ?_, rfl, ⟨_, rfl⟩, ?_⟩
  · simp only [OllamaLanguageModel.load, OllamaLanguageModel.truncate]
    split
    · cases direction <;> exact aux _
    · exact aux _
  · simp only [OpenAiLanguageModel.load, OpenAiLanguageModel.truncate]
    split
    · cases direction <;> exact aux _
    · exact aux _

/-- Closed instance of `load_always_resolves_tokenizer` at a concrete lookup
(always failing, so the fallback is used). -/
theorem load_always_resolves_tokenizer_witness :
    (OllamaLanguageModel.load (fun _ => none) charBPE "codellama:7b").truncate "hi" 0
        TruncationDirection.Start ≠ Except.error ModelError.noTokenizer :=
  (load_always_resolves_tokenizer (fun _ => none) charBPE "codellama:7b" "hi" 0
    TruncationDirection.Start).2.2.1

/-- Once the loop has forwarded an event whose last choice carries a present
finish reason, nothing further is forwarded: any forwarded `done` event is
the final item. -/
theorem streamLoop_no_items_after_done
    (decode : String → Except String OllamaResponseStreamEvent) :
    ∀ (lines : List (Except String String)) pre (ev : OllamaResponseStreamEvent) post,
      (streamLoop decode lines).1 = pre ++ Except.ok ev :: post →
      eventDone ev = true → post = [] := by
  intro lines
  induction lines with
  | nil =>
    intro pre ev post h _
    simp [streamLoop] at h
  | cons l rest ih =>
    intro pre ev post h hd
    cases hp : parse_line decode l with
    | ok oev =>
      cases oev with
      | none =>
        simp only [streamLoop, hp] at h
        exact ih pre ev post h hd
      | some ev0 =>
        cases hdone : eventDone ev0 with
        | true =>
          simp only [streamLoop, hp, hdone, if_true] at h
          cases pre with
          | nil =>
            simp only [List.nil_append, List.cons.injEq] at h
            exact h.2.symm
          | cons p pre' =>
            simp only [List.cons_append, List.cons.injEq] at h
            exact absurd h.2.symm (List.append_ne_nil_of_right_ne_nil _ (List.cons_ne_nil _ _))
        | false =>
          simp [streamLoop, hp, hdone] at h
          cases pre with
          | nil =>
            simp only [List.nil_append, List.cons.injEq, Except.ok.injEq] at h
            rw [← h.1] at hd
            rw [hd] at hdone
            exact absurd hdone (by simp)
          | cons p pre' =>
            simp only [List.cons_append, List.cons.injEq] at h
            exact ih pre' ev post h.2 hd
    | error e =>
      simp only [streamLoop, hp] at h
      cases pre with
      | nil => simp at h
      | cons p pre' =>
        simp only [List.cons_append, List.cons.injEq] at h
        exact ih pre' ev post h.2 hd

/-- The loop reads fewer lines than were available only because it forwarded
a terminating event, which is then the last forwarded item. -/
theorem streamLoop_early_stop
    (decode : String → Except String OllamaResponseStreamEvent) :
    ∀ (lines : List (Except String String)),
      (streamLoop decode lines).2 < lines.length →
      ∃ evs ev, (streamLoop decode lines).1 = evs ++ [Except.ok ev] ∧ eventDone ev = true := by
  intro lines
  induction lines with
  | nil =>
    intro h
    simp [streamLoop] at h
  | cons l rest ih =>
    intro h
    cases hp : parse_line decode l with
    | ok oev =>
      cases oev with
      | none =>
        simp only [streamLoop, hp] at h ⊢
        simp only [List.length_cons] at h
        exact ih (by omega)
      | some ev0 =>
        cases hdone : eventDone ev0 with
        | true =>
          simp only [streamLoop, hp, hdone, if_true]
          exact ⟨[], ev0, rfl, hdone⟩
        | false =>
          simp [streamLoop, hp, hdone] at h
          simp only [streamLoop, hp, hdone]
          obtain ⟨evs, ev, h1, h2⟩ := ih (by omega)
          exact ⟨Except.ok ev0 :: evs, ev, by simp [h1], h2⟩
    | error e =>
      simp only [streamLoop, hp] at h ⊢
      simp only [List.length_cons] at h
      obtain ⟨evs, ev, h1, h2⟩ := ih (by omega)
      exact ⟨Except.error e :: evs, ev, by simp [h1], h2⟩

/-- The two-frame run: a null-finish frame followed by a terminating frame
forwards exactly the two events and reads exactly the two lines. -/
theorem streamLoop_two_line (decode : String → Except String OllamaResponseStreamEvent)
    (s1 s2 : String) (ev1 ev2 : OllamaResponseStreamEvent)
    (h1 : decode s1 = Except.ok ev1) (h2 : decode s2 = Except.ok ev2)
    (hd1 : eventDone ev1 = false) (hd2 : eventDone ev2 = true) :
    streamLoop decode [Except.ok ("data: " ++ s1), Except.ok ("data: " ++ s2)]
      = ([Except.ok ev1, Except.ok ev2], 2) := by
  have p1 : parse_line decode (Except.ok ("data: " ++ s1)) = Except.ok (some ev1) := by
    simp [parse_line, stripDataMarker_marker_append, h1, Except.map]
  have p2 : parse_line decode (Except.ok ("data: " ++ s2)) = Except.ok (some ev2) := by
    simp [parse_line, stripDataMarker_marker_append, h2, Except.map]
  simp [streamLoop, p1, p2, hd1, hd2]

/-- C5 counterexample: a frame whose last choice carries the PRESENT but
EMPTY finish reason (`"finish_reason":""`) terminates the loop even though
the reason is not non-empty: with a decodable `"stop"` frame following, only
ONE event is forwarded and only one line is read, refuting "the loop stops
exactly after forwarding an event whose last choice carries a non-empty
finish reason". -/
theorem stream_stops_on_empty_finish_reason :
    streamLoop decodeTable
        [Except.ok ("data: " ++ jsonEmptyFinish), Except.ok ("data: " ++ jsonStopFinish)]
      = ([Except.ok evEmptyFinish], 1)
    ∧ (evEmptyFinish.choices.getLast?.map (fun c => c.finish_reason)) = some (some "")
    ∧ decodeTable jsonStopFinish = Except.ok evStopFinish := by
  refine ⟨?_, rfl, ?_⟩ <;> rfl

/-- C5 (amended): the loop stops reading exactly after forwarding an event
whose last choice carries a PRESENT finish reason (possibly the empty
string): a forwarded `done` event is always the final forwarded item; when
the loop reads fewer lines than were supplied, the last forwarded item is
such a `done` event; and on the two-line input (a `finish_reason: null`
frame, then a `finish_reason: "stop"` frame) exactly two events are
forwarded and exactly two lines are read. -/
theorem stream_stops_on_present_finish_reason
    (decode : String → Except String OllamaResponseStreamEvent)
    (lines : List (Except String String)) :
    (∀ pre ev post, (streamLoop decode lines).1 = pre ++ Except.ok ev :: post →
        eventDone ev = true → post = [])
    ∧ ((streamLoop decode lines).2 < lines.length →
        ∃ evs ev, (streamLoop decode lines).1 = evs ++ [Except.ok ev] ∧ eventDone ev = true)
    ∧ (∀ s1 s2 ev1 ev2, decode s1 = Except.ok ev1 → decode s2 = Except.ok ev2 →
        eventDone ev1 = false → eventDone ev2 = true →
        streamLoop decode [Except.ok ("data: " ++ s1), Except.ok ("data: " ++ s2)]
          = ([Except.ok ev1, Except.ok ev2], 2)) :=
  ⟨streamLoop_no_items_after_done decode lines,
   streamLoop_early_stop decode lines,
   fun s1 s2 ev1 ev2 h1 h2 hd1 hd2 => streamLoop_two_line decode s1 s2 ev1 ev2 h1 h2 hd1 hd2⟩

/-- Closed instance of `stream_stops_on_present_finish_reason`: the concrete
two-frame stream forwards exactly two events and reads exactly two lines. -/
theorem stream_stops_on_present_finish_reason_witness :
    streamLoop decodeTable
        [Except.ok ("data: " ++ jsonNullFinish), Except.ok ("data: " ++ jsonStopFinish)]
      = ([Except.ok evNullFinish, Except.ok evStopFinish], 2) :=
  (stream_stops_on_present_finish_reason decodeTable []).2.2 jsonNullFinish jsonStopFinish
    evNullFinish evStopFinish rfl rfl rfl rfl

/-- C6: a line that is blank or does not start with the literal `"data: "`
marker is discarded without producing any forwarded event or error: inserting
such a line anywhere between the input lines leaves the forwarded sequence
unchanged (same events, same order). -/
theorem skip_line_preserves_events
    (decode : String → Except String OllamaResponseStreamEvent)
    (xs ys : List (Except String String)) (s : String)
    (hs : s = "" ∨ stripDataMarker s = none) :
    (streamLoop decode (xs ++ Except.ok s :: ys)).1 = (streamLoop decode (xs ++ ys)).1 := by
  have hs' : stripDataMarker s = none := by
    cases hs with
    | inl h => rw [h]; rfl
    | inr h => exact h
  induction xs with
  | nil =>
    simp [streamLoop, parse_line, hs']
  | cons x xs ih =>
    cases hp : parse_line decode x with
    | ok oev =>
      cases oev with
      | none =>
        simp only [List.cons_append, streamLoop, hp]
        exact ih
      | some ev =>
        cases hdone : eventDone ev with
        | true =>
          simp only [List.cons_append, streamLoop, hp, hdone, if_true]
        | false =>
          simp [List.cons_append, streamLoop, hp, hdone]
          exact ih
    | error e =>
      simp [List.cons_append, streamLoop, hp]
      exact ih

/-- Closed instance of `skip_line_preserves_events`: inserting a blank
keep-alive line between the two concrete frames leaves the forwarded events
unchanged. -/
theorem skip_line_preserves_events_witness :
    (streamLoop decodeTable
        [Except.ok ("data: " ++ jsonNullFinish), Except.ok "",
         Except.ok ("data: " ++ jsonStopFinish)]).1
      = (streamLoop decodeTable
          [Except.ok ("data: " ++ jsonNullFinish),
           Except.ok ("data: " ++ jsonStopFinish)]).1 :=
  skip_line_preserves_events decodeTable [Except.ok ("data: " ++ jsonNullFinish)]
    [Except.ok ("data: " ++ jsonStopFinish)] "" (Or.inl rfl)

/-- C8: the `complete()` projection sends an error item through unchanged;
an ok event with no choices produces nothing; and an ok event whose choices
sequence ends in the choice `c` produces exactly the text fragment carried by
`c`'s delta content, the empty string when that field is absent. -/
theorem complete_projection :
    (∀ e : String, projectFragment (Except.error e) = some (Except.error e))
    ∧ (∀ ev : OllamaResponseStreamEvent, ev.choices = [] →
        projectFragment (Except.ok ev) = none)
    ∧ (∀ (ev : OllamaResponseStreamEvent) (cs : List ChatChoiceDelta) (c : ChatChoiceDelta),
        ev.choices = cs ++ [c] →
        projectFragment (Except.ok ev) = some (Except.ok (c.delta.content.getD ""))) := by
  refine ⟨fun e => rfl, fun ev h => ?_, fun ev cs c h => ?_⟩
  · simp [projectFragment, h]
  · simp [projectFragment, h, List.getLast?_concat]

/-- Closed instance of `complete_projection`: the null-finish frame projects
to the fragment "Hello". -/
theorem complete_projection_witness :
    projectFragment (Except.ok evNullFinish) = some (Except.ok "Hello") :=
  complete_projection.2.2 evNullFinish []
    { index := 0, delta := { role := none, content := some "Hello" }, finish_reason := none }
    rfl

/-- C7 counterexample: for the 400 response with body
`{"error":{"message":"bad request"}}` (whose structured parse yields the
message "bad request"), the failure message is
"Failed to connect to OpenAI API: bad request" — it CONTAINS the parsed
message but is not EQUAL to it. -/
theorem error_message_not_equal_to_parsed :
    ollamaErrorMessage
        (fun body =>
          if body = "\x7b\"error\":\x7b\"message\":\"bad request\"\x7d\x7d" then some "bad request"
          else none)
        { code := 400, canonicalReason := "Bad Request" }
        "\x7b\"error\":\x7b\"message\":\"bad request\"\x7d\x7d"
      = "Failed to connect to OpenAI API: bad request"
    ∧ ("Failed to connect to OpenAI API: bad request" : String) ≠ "bad request" :=
  ⟨rfl, by decide⟩

/-- C7 (amended): when the body's structured parse yields a non-empty message
`m`, the failure message is the literal prefix "Failed to connect to OpenAI
API: " followed by `m` (so it contains `m` but is not equal to it);
otherwise it is that prefix followed by the displayed status (code and
reason) and the raw body verbatim. -/
theorem error_message_carries_parsed_or_status (parseErr : String → Option String)
    (status : StatusCode) (body : String) :
    (∀ m, parseErr body = some m → m ≠ "" →
        ollamaErrorMessage parseErr status body = "Failed to connect to OpenAI API: " ++ m)
    ∧ ((parseErr body = none ∨ parseErr body = some "") →
        ollamaErrorMessage parseErr status body
          = "Failed to connect to OpenAI API: "
              ++ (toString status.code ++ " " ++ status.canonicalReason) ++ " " ++ body) := by
  constructor
  · intro m hm hne
    simp [ollamaErrorMessage, hm, hne]
  · intro h
    cases h with
    | inl h => simp [ollamaErrorMessage, h, StatusCode.display]
    | inr h => simp [ollamaErrorMessage, h, StatusCode.display]

/-- Closed instance of `error_message_carries_parsed_or_status`: the parsed
message "bad request" yields the prefixed failure message. -/
theorem error_message_carries_parsed_or_status_witness :
    ollamaErrorMessage (fun _ => some "bad request")
        { code := 400, canonicalReason := "Bad Request" } "oops"
      = "Failed to connect to OpenAI API: " ++ "bad request" :=
  (error_message_carries_parsed_or_status (fun _ => some "bad request")
    { code := 400, canonicalReason := "Bad Request" } "oops").1 "bad request" rfl (by decide)
